import Mathlib

/-!
Verification of the VOLTWISE Autopilot Decision & Reconciliation Engine.

Shallow embedding of the core decision logic of the repository:
  * `backend/app/services/penalty_engine.py` — penalty model and the
    per-device eligibility check `should_delay_appliance`;
  * `backend/app/services/autopilot.py` — strategy action execution,
    snapshot save (`_save_state`), and strategy restore;
  * `backend/app/services/grid_protection.py` — grid-event emergency
    actions and grid-event restore;
  * `backend/app/adapters/device.py` — the device-control boundary.

Python floats are modelled as rationals (the penalty arithmetic is exact
linear arithmetic plus a final clamp and a rounding to 4 decimal places).
Database tables are modelled as lists of records, and Python dicts with
optional keys as structures with `Option` fields whose defaults mirror
each `dict.get` call in the source.
-/

namespace Voltwise

/-! ## Penalty engine (penalty_engine.py) -/

/-- A row of the `tariff_slots` table as read by the penalty engine:
start and end hour of a possibly midnight-wrapping range, per-kWh rate
and a categorical slot type. -/
structure TariffSlot where
  start_hour : Int
  end_hour   : Int
  rate       : ℚ
  slot_type  : String
deriving DecidableEq

/-- The per-slot match test of `_get_slot_for_hour` (penalty_engine.py
lines 40-48): a non-wrapping slot matches `start ≤ hour < end`, a
wrapping slot matches `hour ≥ start or hour < end`. -/
def slotMatches (hour : Int) (s : TariffSlot) : Bool :=
  if s.start_hour < s.end_hour then
    decide (s.start_hour ≤ hour) && decide (hour < s.end_hour)
  else
    decide (hour ≥ s.start_hour) || decide (hour < s.end_hour)

/-- First matching slot wins (`_get_slot_for_hour`, penalty_engine.py
lines 38-49); `none` when no slot covers the hour. -/
def _get_slot_for_hour (hour : Int) (tariff_slots : List TariffSlot) :
    Option TariffSlot :=
  tariff_slots.find? (slotMatches hour)

/-- One entry of a carbon profile: `{hour, gco2_per_kwh}`. -/
structure CarbonEntry where
  hour : Int
  gco2_per_kwh : ℚ
deriving DecidableEq

/-- One insertion step of the Python dict comprehension
`{p["hour"]: float(p["gco2_per_kwh"]) for p in carbon_profile}`: a later
entry for an already-present hour overwrites the stored value in place,
a new hour is appended (Python dicts keep insertion order of keys). -/
def insertCarbonEntry (m : List (Int × ℚ)) (e : CarbonEntry) : List (Int × ℚ) :=
  if m.any (fun p => p.1 = e.hour) then
    m.map (fun p => if p.1 = e.hour then (p.1, e.gco2_per_kwh) else p)
  else
    m ++ [(e.hour, e.gco2_per_kwh)]

/-- The carbon dict built by the comprehension in
`calculate_hourly_penalty` (penalty_engine.py line 79). -/
def buildCarbonMap (carbon_profile : List CarbonEntry) : List (Int × ℚ) :=
  carbon_profile.foldl insertCarbonEntry []

/-- `carbon_map.get(hour, 680)` (penalty_engine.py line 80). -/
def carbonMapGet (m : List (Int × ℚ)) (hour : Int) : ℚ :=
  match m.find? (fun p => p.1 = hour) with
  | some p => p.2
  | none => 680

/-- Python `max(l)` over a non-empty list, with a default for the empty
case mirroring the `if all_rates else` guards in the source. -/
def qMaxList (l : List ℚ) (dflt : ℚ) : ℚ :=
  match l with
  | [] => dflt
  | x :: xs => xs.foldl max x

/-- Python `min(l)` over a non-empty list, with a default for the empty
case mirroring the `if all_rates else` guards in the source. -/
def qMinList (l : List ℚ) (dflt : ℚ) : ℚ :=
  match l with
  | [] => dflt
  | x :: xs => xs.foldl min x

/-- Strategy weight lookup `STRATEGY_WEIGHTS.get(strategy,
STRATEGY_WEIGHTS["balanced"])` (penalty_engine.py lines 28-32, 62):
balanced `(0.7, 0.3)`, max_savings `(1.0, 0.0)`, eco_mode `(0.0, 1.0)`,
any other key falls back to balanced. -/
def STRATEGY_WEIGHTS (strategy : String) : ℚ × ℚ :=
  if strategy = "balanced" then (0.7, 0.3)
  else if strategy = "max_savings" then (1.0, 0.0)
  else if strategy = "eco_mode" then (0.0, 1.0)
  else (0.7, 0.3)

/-- Penalty threshold above which the engine intervenes
(penalty_engine.py line 35). -/
def DEFAULT_PENALTY_THRESHOLD : ℚ := 0.6

/-- The value `max_rate - min_rate` of penalty_engine.py line 72 (with
the `max(...) if all_rates else 1` and `min(...) if all_rates else 0`
defaults of lines 70-71). -/
def rateRange (tariff_slots : List TariffSlot) : ℚ :=
  qMaxList (tariff_slots.map (·.rate)) 1 -
    qMinList (tariff_slots.map (·.rate)) 0

/-- The normalized-cost part of `calculate_hourly_penalty`
(penalty_engine.py lines 64-76): fallback 0.5 when no slot covers the
hour, linear normalization of the slot rate against the min/max rate of
all slots, 0.5 when the rate range is not positive. -/
def norm_cost (hour : Int) (tariff_slots : List TariffSlot) : ℚ :=
  match _get_slot_for_hour hour tariff_slots with
  | none => 0.5
  | some slot =>
    if rateRange tariff_slots > 0 then
      (slot.rate - qMinList (tariff_slots.map (·.rate)) 0) /
        rateRange tariff_slots
    else 0.5

/-- The list `all_carbon` of penalty_engine.py line 81: the carbon dict
values, or `[680]` when the dict is empty. -/
def carbonValues (carbon_profile : List CarbonEntry) : List ℚ :=
  let m := buildCarbonMap carbon_profile
  if m.isEmpty then [(680 : ℚ)] else m.map (·.2)

/-- The value `max_carbon - min_carbon` of penalty_engine.py line 84. -/
def carbonRange (carbon_profile : List CarbonEntry) : ℚ :=
  qMaxList (carbonValues carbon_profile) 680 -
    qMinList (carbonValues carbon_profile) 680

/-- The normalized-carbon part of `calculate_hourly_penalty`
(penalty_engine.py lines 78-88): the hour's value (default 680) is
normalized against the min/max of the carbon dict values; 0.5 when the
carbon range is not positive. -/
def norm_carbon (hour : Int) (carbon_profile : List CarbonEntry) : ℚ :=
  let current_carbon := carbonMapGet (buildCarbonMap carbon_profile) hour
  if carbonRange carbon_profile > 0 then
    (current_carbon - qMinList (carbonValues carbon_profile) 680) /
      carbonRange carbon_profile
  else 0.5

/-- Python `round(x, 4)` on the final penalty (penalty_engine.py line
91), modelled with Mathlib rounding to the nearest multiple of 1/10000.
Python rounds exact ties to even while `round` rounds them up; the two
differ only on exact ties of 1/20000, which no theorem below depends
on. -/
def round4 (x : ℚ) : ℚ := ((round (x * 10000) : ℤ) : ℚ) / 10000

/-- The clamp `min(max(penalty, 0.0), 1.0)` (penalty_engine.py line 91). -/
def clamp01 (x : ℚ) : ℚ := min (max x 0) 1

/-- Penalty score for a single hour (`calculate_hourly_penalty`,
penalty_engine.py lines 52-91): weighted sum of normalized cost and
normalized carbon, clamped to [0, 1] and rounded to 4 decimals. -/
def calculate_hourly_penalty (hour : Int) (tariff_slots : List TariffSlot)
    (carbon_profile : List CarbonEntry) (strategy : String) : ℚ :=
  let w := STRATEGY_WEIGHTS strategy
  round4 (clamp01 (w.1 * norm_cost hour tariff_slots +
    w.2 * norm_carbon hour carbon_profile))

/-! ## Device eligibility (`should_delay_appliance`) -/

/-- A point in time as the eligibility check consumes it: `abs` is the
absolute instant in seconds (used for the comparison against
`override_until`), `tod` is the local wall-clock time of day in seconds
after the `astimezone` conversion of penalty_engine.py line 188 (used
for the protected-window containment test). -/
structure LocalDateTime where
  abs : Int
  tod : Int
deriving DecidableEq

/-- Per-device automation configuration row, with `Option` fields for
every key the source reads through `dict.get`: a missing
`is_delegated` defaults to delegated, a missing `override_active` or
`protected_window_enabled` defaults to false, `override_until` and the
window bounds may be absent (`None`/empty, modelled as `none`). Window
bounds are seconds since midnight parsed from the stored `"HH:MM"`
strings; `override_until` is an absolute instant in seconds (the stored
ISO string, whose parse in the source always succeeds for the values
the engine itself writes). -/
structure DeviceAutopilotConfig where
  id : Nat
  home_id : Nat
  appliance_id : Nat
  is_delegated : Option Bool
  override_active : Option Bool
  override_until : Option Int
  preferred_action : Option String
  protected_window_enabled : Option Bool
  protected_window_start : Option Int
  protected_window_end : Option Int
deriving DecidableEq

/-- Protected-window containment (penalty_engine.py lines 198-203 and
220-225): inclusive bounds, with the midnight-wrap reading
`t ≥ start or t ≤ end` when `start > end`. -/
def windowContains (ws we t : Int) : Bool :=
  if ws ≤ we then decide (ws ≤ t) && decide (t ≤ we)
  else decide (t ≥ ws) || decide (t ≤ we)

/-- The tail of `should_delay_appliance` after the delegation and
override gates (penalty_engine.py lines 176-228): the protected-window
check (against the supplied time when present, otherwise against the
system clock `sys_now`) followed by the penalty comparison. -/
def protectedWindowAndPenalty (cfg : DeviceAutopilotConfig)
    (current_penalty threshold : ℚ) (current_time : Option LocalDateTime)
    (sys_now : Int) : Bool :=
  if cfg.protected_window_enabled.getD false then
    match cfg.protected_window_start, cfg.protected_window_end with
    | some ws, some we =>
      match current_time with
      | some t =>
        if windowContains ws we t.tod then false
        else decide (current_penalty > threshold)
      | none =>
        if windowContains ws we sys_now then false
        else decide (current_penalty > threshold)
    | _, _ => decide (current_penalty > threshold)
  else decide (current_penalty > threshold)

/-- Eligibility check `should_delay_appliance` (penalty_engine.py lines
137-228), in the evaluation order of the source: not delegated (default
delegated) ⇒ false; active override with a set `override_until` falls
through only when a current time is supplied and lies strictly after
it, otherwise false; active override with no `override_until` ⇒ false;
then the protected-window check and finally `penalty > threshold`. -/
def should_delay_appliance (cfg : DeviceAutopilotConfig)
    (current_penalty threshold : ℚ) (current_time : Option LocalDateTime)
    (sys_now : Int) : Bool :=
  if !(cfg.is_delegated.getD true) then false
  else if cfg.override_active.getD false then
    match cfg.override_until with
    | none => false
    | some u =>
      match current_time with
      | none => false
      | some t =>
        if t.abs > u then
          protectedWindowAndPenalty cfg current_penalty threshold
            current_time sys_now
        else false
  else
    protectedWindowAndPenalty cfg current_penalty threshold current_time
      sys_now

/-! ## Data model for the action / restore / grid paths -/

/-- Appliance status enum as stored in the `appliances.status` column
and compared against the string literals `"ON"`, `"OFF"`, `"WARNING"`,
`"SCHEDULED"` in the source. -/
inductive ApplianceStatus
  | on | off | warning | scheduled
deriving DecidableEq

/-- An `appliances` row with the columns the modelled paths read.
`eco_mode_enabled` and `is_controllable` are `Option` because the
source reads them through `dict.get` (defaults `False` resp. `True`);
`is_active` and `is_controllable` also appear as query filters. -/
structure Appliance where
  id : Nat
  home_id : Nat
  status : ApplianceStatus
  eco_mode_enabled : Option Bool
  category : Option String
  is_controllable : Option Bool
  is_active : Bool
deriving DecidableEq

/-- An `autopilot_saved_state` row. `restored` models
`restored_at IS NOT NULL` (the engine only ever tests the column for
null, never compares timestamps). `prev_eco_mode` is `Option` because
the grid-protection upsert omits the column entirely (it stays at its
prior value on conflict and at the NULL default on insert) and the
restore path reads it through `entry.get("prev_eco_mode", False)`. -/
structure SavedState where
  id : Nat
  home_id : Nat
  appliance_id : Nat
  prev_status : ApplianceStatus
  prev_eco_mode : Option Bool
  trigger_type : String
  restored : Bool
deriving DecidableEq

/-- The `autopilot_saved_state` table together with the id sequence. -/
structure SavedTable where
  rows : List SavedState
  nextId : Nat
deriving DecidableEq

/-- The upsert conflict key `(home_id, appliance_id, trigger_type)`
declared by `on_conflict` in `_save_state` (autopilot.py line 497) and
in the grid-protection snapshot write (grid_protection.py line 239). -/
def savedKey (r : SavedState) : Nat × Nat × String :=
  (r.home_id, r.appliance_id, r.trigger_type)

/-- Snapshot upsert of `_save_state` (autopilot.py lines 486-499): on
conflict with an existing row for the key, the provided columns
(`prev_status`, `prev_eco_mode`, `saved_at`, `restored_at = NULL`)
overwrite the old values in place; otherwise a fresh row is inserted. -/
def upsertSavedState (tbl : SavedTable) (home aid : Nat)
    (status : ApplianceStatus) (eco : Bool) (trigger : String) : SavedTable :=
  if tbl.rows.any (fun r => savedKey r = (home, aid, trigger)) then
    { tbl with rows := tbl.rows.map (fun r =>
        if savedKey r = (home, aid, trigger) then
          { r with prev_status := status, prev_eco_mode := some eco,
                   restored := false }
        else r) }
  else
    let newRow : SavedState :=
      { id := tbl.nextId, home_id := home, appliance_id := aid,
        prev_status := status, prev_eco_mode := some eco,
        trigger_type := trigger, restored := false }
    { rows := tbl.rows ++ [newRow], nextId := tbl.nextId + 1 }

/-- Snapshot upsert of the grid-protection path (grid_protection.py
lines 232-239): same conflict key with `trigger_type = "grid_event"`,
but the payload has no `prev_eco_mode` column, so that column keeps its
prior value on conflict and the NULL default on insert. -/
def upsertGridSavedState (tbl : SavedTable) (home aid : Nat)
    (status : ApplianceStatus) : SavedTable :=
  if tbl.rows.any (fun r => savedKey r = (home, aid, "grid_event")) then
    { tbl with rows := tbl.rows.map (fun r =>
        if savedKey r = (home, aid, "grid_event") then
          { r with prev_status := status, restored := false }
        else r) }
  else
    let newRow : SavedState :=
      { id := tbl.nextId, home_id := home, appliance_id := aid,
        prev_status := status, prev_eco_mode := none,
        trigger_type := "grid_event", restored := false }
    { rows := tbl.rows ++ [newRow], nextId := tbl.nextId + 1 }

/-- The restore-side update `UPDATE autopilot_saved_state SET
restored_at = now() WHERE id = entry.id` used by both restore paths. -/
def markRestoredById (tbl : SavedTable) (rid : Nat) : SavedTable :=
  { tbl with rows := tbl.rows.map (fun r =>
      if r.id = rid then { r with restored := true } else r) }

/-- A `control_logs` row as written by `_log_action` (autopilot.py
lines 502-514) and read back by `_is_user_override`. `result_success`
models the `result` column being `"success"` rather than `"failed"`. -/
structure ControlLog where
  appliance_id : Nat
  action : String
  trigger_source : String
  result_success : Bool
  created_at : Int
deriving DecidableEq

/-- One invocation of the device-control boundary
(`DeviceAdapter.turn_on` / `turn_off` / `set_eco_mode`,
adapters/device.py). -/
inductive DeviceCall
  | turnOn (aid : Nat)
  | turnOff (aid : Nat)
  | setEcoMode (aid : Nat) (enabled : Bool)
deriving DecidableEq

/-- Environment behaviour of the device boundary for a given call:
`none` means the call raises an exception (infrastructure failure),
`some s` means it returns a `ControlResult` with `success = s`. The
adapters as written in adapters/device.py always return `success =
True` after updating the appliance row in the database; the `some
false` case is kept for the generality of the `result.success`
branches in the callers. -/
def DeviceBeh := DeviceCall → Option Bool

/-- An element of the `actions_taken` summary list that every entry
point returns. `isError` records the presence of the `"error"` key
added by the exception handlers. -/
structure ActionEntry where
  appliance_id : Nat
  action : String
  success : Bool
  isError : Bool
deriving DecidableEq

/-- The database tables the modelled paths touch. -/
structure Database where
  appliances : List Appliance
  configs : List DeviceAutopilotConfig
  saved : SavedTable
  logs : List ControlLog
deriving DecidableEq

/-- Result of one entry-point run: the updated database, the device
calls issued, the `actions_taken` entries collected, and the appliance
ids whose restore failure was reported through `logger.error` (the
restore paths record failures only in the log). -/
structure RunOut where
  db : Database
  calls : List DeviceCall
  actions : List ActionEntry
  errs : List Nat
deriving DecidableEq

/-- The `appliances` table update performed by the adapters after a
non-raising `turn_on` / `turn_off` (adapters/device.py lines 52-68,
117-160). -/
def setStatus (apps : List Appliance) (aid : Nat) (st : ApplianceStatus) :
    List Appliance :=
  apps.map (fun a => if a.id = aid then { a with status := st } else a)

/-- The `appliances` table update performed by the adapters after a
non-raising `set_eco_mode` (adapters/device.py lines 70-77). -/
def setEcoFlag (apps : List Appliance) (aid : Nat) (b : Bool) :
    List Appliance :=
  apps.map (fun a =>
    if a.id = aid then { a with eco_mode_enabled := some b } else a)

/-- `_log_action` (autopilot.py lines 502-514): append a `control_logs`
row with the given action, trigger source and result. -/
def _log_action (logs : List ControlLog) (aid : Nat) (action source : String)
    (success : Bool) (at_ : Int) : List ControlLog :=
  logs ++ [{ appliance_id := aid, action := action,
             trigger_source := source, result_success := success,
             created_at := at_ }]

/-! ## Strategy action path (autopilot.py, `execute_strategy_action`) -/

/-- The `order by created_at desc limit 1` head of the recent-log query
in `_is_user_override`: the row with the greatest `created_at`, taking
the most recently inserted row among equal timestamps (insertion order
is the tie-break of the underlying store). -/
def latestRecentLog (logs : List ControlLog) : Option ControlLog :=
  logs.foldl (fun acc x =>
    match acc with
    | none => some x
    | some a => if x.created_at ≥ a.created_at then some x else some a) none

/-- `_is_user_override` (autopilot.py lines 440-458): the appliance's
most recent `control_logs` row of the last 5 minutes (300 seconds) is a
user/physical/manual `turn_on`. -/
def _is_user_override (logs : List ControlLog) (aid : Nat)
    (now : LocalDateTime) : Bool :=
  let recent := logs.filter (fun l =>
    l.appliance_id == aid && decide (l.created_at ≥ now.abs - 300))
  match latestRecentLog recent with
  | none => false
  | some last =>
    last.action == "turn_on" &&
      (last.trigger_source == "user" || last.trigger_source == "physical" ||
        last.trigger_source == "manual")

/-- `_set_override` (autopilot.py lines 461-483): mark the config row
overridden. The `override_until` instant the source computes from the
penalty timeline is modelled as NULL: no modelled path reads the value
back within a run, and NULL is itself a reachable result of the source
computation (when no future hour of the timeline falls below the
threshold). -/
def _set_override (configs : List DeviceAutopilotConfig) (config_id : Nat) :
    List DeviceAutopilotConfig :=
  configs.map (fun c =>
    if c.id = config_id then
      { c with override_active := some true, override_until := none }
    else c)

/-- The eco-capable categories tuple of autopilot.py line 154; a
missing category is not a member, matching `appliance.get("category")
not in eco_supported`. -/
def ecoSupported (category : Option String) : Bool :=
  category == some "ac" || category == some "washing_machine" ||
    category == some "refrigerator"

/-- One iteration of the per-device loop of `execute_strategy_action`
(autopilot.py lines 125-224): skip when the appliance is not in the
prefetched active/controllable map, fails the eligibility check, or is
already OFF; on a detected user override mark the config and skip;
otherwise save the snapshot first, resolve the preferred action
(falling back to turn_off when eco is unsupported), and dispatch to the
device boundary inside the try/except. A raising call yields an
`actions_taken` entry with `success = False` and an error field and no
`control_logs` row; a returning call updates the appliance row (the
written adapters update the table on every non-raising return), logs
the action and records the entry. -/
def stratProcessDevice (beh : DeviceBeh) (home_id : Nat)
    (now : LocalDateTime) (current_penalty : ℚ) (trigger : String)
    (apps : List Appliance) (st : Database) (cfg : DeviceAutopilotConfig) :
    Database × List DeviceCall × Option ActionEntry :=
  match apps.find? (fun a => a.id == cfg.appliance_id) with
  | none => (st, [], none)
  | some appliance =>
    if !(should_delay_appliance cfg current_penalty
        DEFAULT_PENALTY_THRESHOLD (some now) now.tod) then (st, [], none)
    else if appliance.status = .off then (st, [], none)
    else if _is_user_override st.logs cfg.appliance_id now then
      ({ st with configs := _set_override st.configs cfg.id }, [], none)
    else
      let st1 := { st with saved := (upsertSavedState st.saved home_id
        cfg.appliance_id appliance.status
        (appliance.eco_mode_enabled.getD false) trigger) }
      let pa0 := cfg.preferred_action.getD "delay_start"
      let pa := if (pa0 == "eco_mode" || pa0 == "limit_power") &&
          !(ecoSupported appliance.category) then "turn_off" else pa0
      if pa = "turn_off" then
        if appliance.status = .on || appliance.status = .warning then
          let call := DeviceCall.turnOff cfg.appliance_id
          match beh call with
          | none => (st1, [call],
              some ⟨cfg.appliance_id, "turn_off", false, true⟩)
          | some s =>
            let st2 := { st1 with
              appliances := setStatus st1.appliances cfg.appliance_id .off,
              logs := _log_action st1.logs cfg.appliance_id "turn_off"
                ("autopilot_" ++ trigger) s now.abs }
            (st2, [call], some ⟨cfg.appliance_id, "turn_off", s, false⟩)
        else (st1, [], none)
      else if pa = "eco_mode" then
        if !(appliance.eco_mode_enabled.getD false) then
          let call := DeviceCall.setEcoMode cfg.appliance_id true
          match beh call with
          | none => (st1, [call],
              some ⟨cfg.appliance_id, "eco_mode", false, true⟩)
          | some s =>
            let st2 := { st1 with
              appliances := setEcoFlag st1.appliances cfg.appliance_id true,
              logs := _log_action st1.logs cfg.appliance_id "eco_mode_on"
                ("autopilot_" ++ trigger) s now.abs }
            (st2, [call], some ⟨cfg.appliance_id, "eco_mode", s, false⟩)
        else (st1, [], none)
      else if pa = "delay_start" then
        if appliance.status = .on || appliance.status = .warning then
          let call := DeviceCall.turnOff cfg.appliance_id
          match beh call with
          | none => (st1, [call],
              some ⟨cfg.appliance_id, "delay_start", false, true⟩)
          | some s =>
            let st2 := { st1 with
              appliances := setStatus st1.appliances cfg.appliance_id .off,
              logs := _log_action st1.logs cfg.appliance_id "delay_start_off"
                ("autopilot_" ++ trigger) s now.abs }
            (st2, [call], some ⟨cfg.appliance_id, "delay_start", s, false⟩)
        else (st1, [], none)
      else if pa = "limit_power" then
        if !(appliance.eco_mode_enabled.getD false) then
          let call := DeviceCall.setEcoMode cfg.appliance_id true
          match beh call with
          | none => (st1, [call],
              some ⟨cfg.appliance_id, "limit_power", false, true⟩)
          | some s =>
            let st2 := { st1 with
              appliances := setEcoFlag st1.appliances cfg.appliance_id true,
              logs := _log_action st1.logs cfg.appliance_id "limit_power"
                ("autopilot_" ++ trigger) s now.abs }
            (st2, [call], some ⟨cfg.appliance_id, "limit_power", s, false⟩)
        else (st1, [], none)
      else (st1, [], none)

/-- The device loop of `execute_strategy_action`, threading the
database through the iterations and collecting device calls and
`actions_taken` entries in order. -/
def stratLoop (beh : DeviceBeh) (home_id : Nat) (now : LocalDateTime)
    (current_penalty : ℚ) (trigger : String) (apps : List Appliance) :
    Database → List DeviceAutopilotConfig →
    Database × List DeviceCall × List ActionEntry
  | st, [] => (st, [], [])
  | st, cfg :: rest =>
    let r := stratProcessDevice beh home_id now current_penalty trigger apps
      st cfg
    let rs := stratLoop beh home_id now current_penalty trigger apps r.1 rest
    (rs.1, r.2.1 ++ rs.2.1, r.2.2.toList ++ rs.2.2)

/-- `execute_strategy_action` (autopilot.py lines 38-272). The home-row
fields the source reads from the store (`autopilot_enabled`,
`autopilot_strategy`, the tariff slots of its plan) are passed as
arguments. Returns `none` exactly when the source would fall through to
the legacy `automation_rules` path (no delegated config rows, autopilot
.py lines 102-104), which no claim touches; otherwise the run summary.
The current hour for the penalty is the hour of the supplied local
time. The post-loop `automation_rules` update and the notification
insert (autopilot.py lines 226-265) touch no table the modelled claims
read and are not represented. -/
def execute_strategy_action (beh : DeviceBeh) (db : Database)
    (home_id : Nat) (autopilot_enabled : Bool) (strategy : String)
    (tariff_slots : List TariffSlot) (carbon_profile : List CarbonEntry)
    (trigger : String) (now : LocalDateTime) : Option RunOut :=
  if !autopilot_enabled then some ⟨db, [], [], []⟩
  else
    let current_hour := now.tod / 3600
    let current_penalty := calculate_hourly_penalty current_hour
      tariff_slots carbon_profile strategy
    if !(decide (current_penalty > DEFAULT_PENALTY_THRESHOLD)) then
      some ⟨db, [], [], []⟩
    else
      let configs := db.configs.filter (fun c =>
        c.home_id == home_id && c.is_delegated == some true)
      if configs.isEmpty then none
      else
        let apps := db.appliances.filter (fun a =>
          a.home_id == home_id && a.is_active &&
            a.is_controllable == some true)
        let r := stratLoop beh home_id now current_penalty trigger apps db
          configs
        some ⟨r.1, r.2.1, r.2.2, []⟩

/-! ## Grid protection path (grid_protection.py) -/

/-- The per-home query of `handle_grid_event` (grid_protection.py lines
202-204): delegated config rows of the home, each with the embedded
appliance row of the foreign-key join (`none` when the appliance is
missing). -/
def gridRowsFor (db : Database) (home_id : Nat) :
    List (DeviceAutopilotConfig × Option Appliance) :=
  (db.configs.filter (fun c =>
    c.home_id == home_id && c.is_delegated == some true)).map
    (fun c => (c, db.appliances.find? (fun a => a.id == c.appliance_id)))

/-- One iteration of the per-device loop of `handle_grid_event`
(grid_protection.py lines 206-262): skip on a missing embedded
appliance, an active override, an already-OFF status, or a
non-controllable appliance; otherwise turn off through the boundary
and, when the call returns, snapshot the prior status under the
`grid_event` trigger class. A raising call yields an error entry and no
snapshot. -/
def gridProcessRow (beh : DeviceBeh) (home_id : Nat) (st : Database)
    (row : DeviceAutopilotConfig × Option Appliance) :
    Database × List DeviceCall × Option ActionEntry :=
  match row.2 with
  | none => (st, [], none)
  | some appliance =>
    if row.1.override_active.getD false then (st, [], none)
    else if appliance.status = .off then (st, [], none)
    else if !(appliance.is_controllable.getD true) then (st, [], none)
    else
      let call := DeviceCall.turnOff appliance.id
      match beh call with
      | none => (st, [call], some ⟨appliance.id, "emergency_off", false, true⟩)
      | some s =>
        let st1 := { st with
          appliances := setStatus st.appliances appliance.id .off }
        let st2 := { st1 with saved := (upsertGridSavedState st1.saved
          home_id appliance.id appliance.status) }
        (st2, [call], some ⟨appliance.id, "emergency_off", s, false⟩)

/-- The per-home device loop of `handle_grid_event`. -/
def gridHomeLoop (beh : DeviceBeh) (home_id : Nat) :
    Database → List (DeviceAutopilotConfig × Option Appliance) →
    Database × List DeviceCall × List ActionEntry
  | st, [] => (st, [], [])
  | st, row :: rest =>
    let r := gridProcessRow beh home_id st row
    let rs := gridHomeLoop beh home_id r.1 rest
    (rs.1, r.2.1 ++ rs.2.1, r.2.2.toList ++ rs.2.2)

/-- Processing of one home inside `handle_grid_event`: fetch the
delegated rows, then run the device loop. -/
def handle_grid_event_home (beh : DeviceBeh) (db : Database)
    (home_id : Nat) : Database × List DeviceCall × List ActionEntry :=
  gridHomeLoop beh home_id db (gridRowsFor db home_id)

/-- `handle_grid_event` (grid_protection.py lines 162-285) over an
explicit list of affected home ids (the resolution of affected homes
from the `homes` table, lines 183-195, is passed in resolved form):
severities other than warning/critical take no action; otherwise each
home's delegated devices are processed in turn. The per-home
notification insert (lines 264-279) touches no table the modelled
claims read and is not represented. -/
def handle_grid_event (beh : DeviceBeh) (db : Database) (severity : String)
    (home_ids : List Nat) : RunOut :=
  if !(severity == "warning" || severity == "critical") then ⟨db, [], [], []⟩
  else
    let r := home_ids.foldl (fun acc h =>
      let one := handle_grid_event_home beh acc.1 h
      (one.1, acc.2.1 ++ one.2.1, acc.2.2 ++ one.2.2))
      ((db, [], []) : Database × List DeviceCall × List ActionEntry)
    ⟨r.1, r.2.1, r.2.2, []⟩

/-! ## Restore paths -/

/-- The embedded `appliances(id, name, status, is_controllable)` row of
the restore queries (autopilot.py lines 284-288, grid_protection.py
lines 297-301). The select list omits `eco_mode_enabled`, so the
strategy-restore read `appliance.get("eco_mode_enabled")` always
yields `None`; the field is kept so that read can be transcribed
literally. -/
structure JoinedAppliance where
  id : Nat
  status : ApplianceStatus
  is_controllable : Option Bool
  eco_mode_enabled : Option Bool
deriving DecidableEq

/-- The foreign-key join embedding an appliance row into a saved-state
row for the restore queries. -/
def joinAppliance (db : Database) (aid : Nat) : Option JoinedAppliance :=
  (db.appliances.find? (fun a => a.id == aid)).map
    (fun a => ⟨a.id, a.status, a.is_controllable, none⟩)

/-- The strategy-restore query (autopilot.py lines 284-293): unrestored
saved states of the home excluding the `grid_event` trigger class, each
with its embedded appliance. -/
def stratRestoreRows (db : Database) (home_id : Nat) :
    List (SavedState × Option JoinedAppliance) :=
  (db.saved.rows.filter (fun r =>
    r.home_id == home_id && !r.restored &&
      !(r.trigger_type == "grid_event"))).map
    (fun r => (r, joinAppliance db r.appliance_id))

/-- One iteration of the loop of `execute_strategy_restore`
(autopilot.py lines 295-341): a missing embedded appliance is skipped;
a snapshot whose `prev_status` is not ON/WARNING is just marked
restored; a snapshot whose appliance is already ON is marked restored
without a device call; otherwise `turn_on` is invoked — an exception is
caught and reported only through `logger.error` (the snapshot stays
unrestored), a return is logged, the dead eco-restore branch is
transcribed (the joined row has no `eco_mode_enabled` column), the
snapshot is marked restored and an entry recorded. -/
def stratRestoreStep (beh : DeviceBeh) (now : LocalDateTime) (st : Database)
    (row : SavedState × Option JoinedAppliance) :
    Database × List DeviceCall × Option ActionEntry × List Nat :=
  match row.2 with
  | none => (st, [], none, [])
  | some appliance =>
    let entry := row.1
    if !(entry.prev_status = .on || entry.prev_status = .warning) then
      ({ st with saved := markRestoredById st.saved entry.id }, [], none, [])
    else if appliance.status = .on then
      ({ st with saved := markRestoredById st.saved entry.id }, [], none, [])
    else
      let call := DeviceCall.turnOn entry.appliance_id
      match beh call with
      | none => (st, [call], none, [entry.appliance_id])
      | some s =>
        let st1 := { st with
          appliances := setStatus st.appliances entry.appliance_id .on,
          logs := _log_action st.logs entry.appliance_id "turn_on"
            "autopilot_restore" s now.abs }
        if !(entry.prev_eco_mode.getD false) &&
            appliance.eco_mode_enabled.getD false then
          let call2 := DeviceCall.setEcoMode entry.appliance_id false
          match beh call2 with
          | none => (st1, [call, call2], none, [entry.appliance_id])
          | some _ =>
            let st2 := { st1 with
              appliances := setEcoFlag st1.appliances entry.appliance_id
                false,
              saved := markRestoredById st1.saved entry.id }
            (st2, [call, call2],
              some ⟨entry.appliance_id, "restore_on", s, false⟩, [])
        else
          let st2 := { st1 with
            saved := markRestoredById st1.saved entry.id }
          (st2, [call], some ⟨entry.appliance_id, "restore_on", s, false⟩, [])

/-- The entry loop of `execute_strategy_restore`. -/
def stratRestoreLoop (beh : DeviceBeh) (now : LocalDateTime) :
    Database → List (SavedState × Option JoinedAppliance) →
    Database × List DeviceCall × List ActionEntry × List Nat
  | st, [] => (st, [], [], [])
  | st, row :: rest =>
    let r := stratRestoreStep beh now st row
    let rs := stratRestoreLoop beh now r.1 rest
    (rs.1, r.2.1 ++ rs.2.1, r.2.2.1.toList ++ rs.2.2.1, r.2.2.2 ++ rs.2.2.2)

/-- `execute_strategy_restore` (autopilot.py lines 275-367): with no
unrestored non-grid snapshot the function returns before touching
anything; otherwise the entries are processed and afterwards the
home's active override flags are cleared. The legacy
`automation_rules` reset and the notification insert (lines 350-365)
touch no table the modelled claims read and are not represented. -/
def execute_strategy_restore (beh : DeviceBeh) (db : Database)
    (home_id : Nat) (now : LocalDateTime) : RunOut :=
  let rows := stratRestoreRows db home_id
  if rows.isEmpty then ⟨db, [], [], []⟩
  else
    let r := stratRestoreLoop beh now db rows
    let db1 := { r.1 with configs := r.1.configs.map (fun c =>
        if c.home_id == home_id && c.override_active == some true then
          { c with override_active := some false, override_until := none }
        else c) }
    ⟨db1, r.2.1, r.2.2.1, r.2.2.2⟩

/-- The grid-restore query (grid_protection.py lines 297-301):
unrestored `grid_event` snapshots across all homes, each with its
embedded appliance. -/
def gridRestoreRows (db : Database) :
    List (SavedState × Option JoinedAppliance) :=
  (db.saved.rows.filter (fun r =>
    r.trigger_type == "grid_event" && !r.restored)).map
    (fun r => (r, joinAppliance db r.appliance_id))

/-- One iteration of the loop of `restore_after_grid_event`
(grid_protection.py lines 303-334): a missing embedded appliance is
skipped; a snapshot whose `prev_status` is not ON/WARNING is skipped
WITHOUT being marked restored (unlike the strategy path); a snapshot
whose appliance is already ON is marked restored without a device
call; otherwise `turn_on` is invoked — an exception is caught and
reported only through `logger.error`, a return marks the snapshot
restored and records an entry (this path writes no `control_logs`
row). -/
def gridRestoreStep (beh : DeviceBeh) (st : Database)
    (row : SavedState × Option JoinedAppliance) :
    Database × List DeviceCall × Option ActionEntry × List Nat :=
  match row.2 with
  | none => (st, [], none, [])
  | some appliance =>
    let entry := row.1
    if !(entry.prev_status = .on || entry.prev_status = .warning) then
      (st, [], none, [])
    else if appliance.status = .on then
      ({ st with saved := markRestoredById st.saved entry.id }, [], none, [])
    else
      let call := DeviceCall.turnOn appliance.id
      match beh call with
      | none => (st, [call], none, [appliance.id])
      | some s =>
        let st1 := { st with
          appliances := setStatus st.appliances appliance.id .on,
          saved := markRestoredById st.saved entry.id }
        (st1, [call], some ⟨appliance.id, "restore_on", s, false⟩, [])

/-- The entry loop of `restore_after_grid_event`. -/
def gridRestoreLoop (beh : DeviceBeh) :
    Database → List (SavedState × Option JoinedAppliance) →
    Database × List DeviceCall × List ActionEntry × List Nat
  | st, [] => (st, [], [], [])
  | st, row :: rest =>
    let r := gridRestoreStep beh st row
    let rs := gridRestoreLoop beh r.1 rest
    (rs.1, r.2.1 ++ rs.2.1, r.2.2.1.toList ++ rs.2.2.1, r.2.2.2 ++ rs.2.2.2)

/-- `restore_after_grid_event` (grid_protection.py lines 288-336). -/
def restore_after_grid_event (beh : DeviceBeh) (db : Database) : RunOut :=
  let r := gridRestoreLoop beh db (gridRestoreRows db)
  ⟨r.1, r.2.1, r.2.2.1, r.2.2.2⟩

/-! ## Per-device outcome functions

The three batch loops above thread the database through their
iterations, but each iteration's contribution to the run summary is a
function of the device's own row alone (the strategy-action loop also
reads the `control_logs` rows of its own appliance). The following
outcome functions state that contribution directly; the isolation
theorems below prove the loops equal to their `filterMap`. -/

/-- The `actions_taken` contribution of one device in the
`handle_grid_event` loop, as a function of the device's joined row and
the boundary behaviour only. -/
def gridOutcome (beh : DeviceBeh)
    (row : DeviceAutopilotConfig × Option Appliance) : Option ActionEntry :=
  match row.2 with
  | none => none
  | some appliance =>
    if row.1.override_active.getD false then none
    else if appliance.status = .off then none
    else if !(appliance.is_controllable.getD true) then none
    else
      match beh (DeviceCall.turnOff appliance.id) with
      | none => some ⟨appliance.id, "emergency_off", false, true⟩
      | some s => some ⟨appliance.id, "emergency_off", s, false⟩

/-- The `actions_taken` contribution of one device in the
`execute_strategy_action` loop, as a function of the device's config,
the prefetched appliance map, and the `control_logs` rows present when
the loop started. -/
def stratOutcome (beh : DeviceBeh) (now : LocalDateTime)
    (current_penalty : ℚ) (apps : List Appliance) (logs0 : List ControlLog)
    (cfg : DeviceAutopilotConfig) : Option ActionEntry :=
  match apps.find? (fun a => a.id == cfg.appliance_id) with
  | none => none
  | some appliance =>
    if !(should_delay_appliance cfg current_penalty
        DEFAULT_PENALTY_THRESHOLD (some now) now.tod) then none
    else if appliance.status = .off then none
    else if _is_user_override logs0 cfg.appliance_id now then none
    else
      let pa0 := cfg.preferred_action.getD "delay_start"
      let pa := if (pa0 == "eco_mode" || pa0 == "limit_power") &&
          !(ecoSupported appliance.category) then "turn_off" else pa0
      if pa = "turn_off" then
        if appliance.status = .on || appliance.status = .warning then
          match beh (DeviceCall.turnOff cfg.appliance_id) with
          | none => some ⟨cfg.appliance_id, "turn_off", false, true⟩
          | some s => some ⟨cfg.appliance_id, "turn_off", s, false⟩
        else none
      else if pa = "eco_mode" then
        if !(appliance.eco_mode_enabled.getD false) then
          match beh (DeviceCall.setEcoMode cfg.appliance_id true) with
          | none => some ⟨cfg.appliance_id, "eco_mode", false, true⟩
          | some s => some ⟨cfg.appliance_id, "eco_mode", s, false⟩
        else none
      else if pa = "delay_start" then
        if appliance.status = .on || appliance.status = .warning then
          match beh (DeviceCall.turnOff cfg.appliance_id) with
          | none => some ⟨cfg.appliance_id, "delay_start", false, true⟩
          | some s => some ⟨cfg.appliance_id, "delay_start", s, false⟩
        else none
      else if pa = "limit_power" then
        if !(appliance.eco_mode_enabled.getD false) then
          match beh (DeviceCall.setEcoMode cfg.appliance_id true) with
          | none => some ⟨cfg.appliance_id, "limit_power", false, true⟩
          | some s => some ⟨cfg.appliance_id, "limit_power", s, false⟩
        else none
      else none

/-- The `(actions_taken, logger.error)` contribution of one snapshot in
the `execute_strategy_restore` loop. -/
def stratRestoreOutcome (beh : DeviceBeh)
    (row : SavedState × Option JoinedAppliance) :
    Option ActionEntry × List Nat :=
  match row.2 with
  | none => (none, [])
  | some appliance =>
    let entry := row.1
    if !(entry.prev_status = .on || entry.prev_status = .warning) then
      (none, [])
    else if appliance.status = .on then (none, [])
    else
      match beh (DeviceCall.turnOn entry.appliance_id) with
      | none => (none, [entry.appliance_id])
      | some s =>
        if !(entry.prev_eco_mode.getD false) &&
            appliance.eco_mode_enabled.getD false then
          match beh (DeviceCall.setEcoMode entry.appliance_id false) with
          | none => (none, [entry.appliance_id])
          | some _ => (some ⟨entry.appliance_id, "restore_on", s, false⟩, [])
        else (some ⟨entry.appliance_id, "restore_on", s, false⟩, [])

/-- The `(actions_taken, logger.error)` contribution of one snapshot in
the `restore_after_grid_event` loop. -/
def gridRestoreOutcome (beh : DeviceBeh)
    (row : SavedState × Option JoinedAppliance) :
    Option ActionEntry × List Nat :=
  match row.2 with
  | none => (none, [])
  | some appliance =>
    let entry := row.1
    if !(entry.prev_status = .on || entry.prev_status = .warning) then
      (none, [])
    else if appliance.status = .on then (none, [])
    else
      match beh (DeviceCall.turnOn appliance.id) with
      | none => (none, [appliance.id])
      | some s => (some ⟨appliance.id, "restore_on", s, false⟩, [])

/-! ## Key-uniqueness invariant of the snapshot table -/

/-- At most one row of the snapshot table per upsert conflict key
(home, appliance, trigger class); the unique constraint the two
`on_conflict` upserts rely on. -/
def KeyUnique (rows : List SavedState) : Prop :=
  rows.Pairwise (fun r1 r2 => savedKey r1 ≠ savedKey r2)

/-- At most one live (unrestored) snapshot row per conflict key. -/
def AtMostOneLive (rows : List SavedState) : Prop :=
  ∀ k : Nat × Nat × String,
    (rows.filter (fun r => !r.restored && savedKey r == k)).length ≤ 1

/-! ## Concrete scenario data

Shared fixtures for the closed counterexamples and the witnesses: the
tariff plan of the specification's scenario section, a single
delegated air-conditioner home, and the always-succeeding device
boundary of the written adapters. -/

/-- The tariff plan of the specification scenario: off-peak 0-6 at 5,
normal 6-18 at 7, peak 18-22 at 9.55, normal 22-24 at 7. -/
def demoSlots : List TariffSlot :=
  [⟨0, 6, 5, "off-peak"⟩, ⟨6, 18, 7, "normal"⟩,
   ⟨18, 22, 9.55, "peak"⟩, ⟨22, 24, 7, "normal"⟩]

/-- A delegated, controllable, active AC that is ON with eco mode off. -/
def demoAppliance : Appliance :=
  { id := 1, home_id := 1, status := .on, eco_mode_enabled := some false,
    category := some "ac", is_controllable := some true, is_active := true }

/-- A delegated config with no override and no protected window, whose
preferred action is eco_mode. -/
def demoEcoConfig : DeviceAutopilotConfig :=
  { id := 1, home_id := 1, appliance_id := 1, is_delegated := some true,
    override_active := some false, override_until := none,
    preferred_action := some "eco_mode", protected_window_enabled := none,
    protected_window_start := none, protected_window_end := none }

/-- The same config with preferred action turn_off. -/
def demoOffConfig : DeviceAutopilotConfig :=
  { demoEcoConfig with preferred_action := some "turn_off" }

/-- The config of the protected-window scenario: delegated, no
override, window 22:00-06:00 enabled. -/
def demoWindowConfig : DeviceAutopilotConfig :=
  { demoEcoConfig with
    protected_window_enabled := some true,
    protected_window_start := some (22*3600),
    protected_window_end := some (6*3600) }

/-- A config with no `is_delegated` key at all. -/
def demoNoKeyConfig : DeviceAutopilotConfig :=
  { demoEcoConfig with is_delegated := none }

/-- The database of the single-device home scenarios. -/
def demoDbEco : Database :=
  { appliances := [demoAppliance], configs := [demoEcoConfig],
    saved := ⟨[], 0⟩, logs := [] }

/-- The same database with the turn_off config. -/
def demoDbOff : Database :=
  { appliances := [demoAppliance], configs := [demoOffConfig],
    saved := ⟨[], 0⟩, logs := [] }

/-- The device boundary as written in adapters/device.py: every call
returns with `success = True`. -/
def alwaysOk : DeviceBeh := fun _ => some true

/-- An evening instant: 19:00 local time. -/
def demoNow : LocalDateTime := ⟨1000000, 19*3600⟩

/-- The database state after one eco-mode strategy trigger on
`demoDbEco`: eco mode enabled, one unrestored snapshot capturing the
pre-action state (ON, eco off), one control log. -/
def demoDbEcoAfter : Database :=
  ⟨[{ demoAppliance with eco_mode_enabled := some true }], [demoEcoConfig],
    ⟨[⟨0, 1, 1, .on, some false, "penalty_threshold", false⟩], 1⟩,
    [⟨1, "eco_mode_on", "autopilot_penalty_threshold", true, 1000000⟩]⟩

/-- The database state after one turn-off strategy trigger on
`demoDbOff`: appliance OFF, one unrestored snapshot capturing the
pre-action state (ON, eco off), one control log. -/
def demoDbOffAfter : Database :=
  ⟨[{ demoAppliance with status := .off }], [demoOffConfig],
    ⟨[⟨0, 1, 1, .on, some false, "penalty_threshold", false⟩], 1⟩,
    [⟨1, "turn_off", "autopilot_penalty_threshold", true, 1000000⟩]⟩

/-! ## Theorems -/

/-- C3: for every delegated device config with no active override whose
protected window is enabled and contains the supplied current time
(inclusive bounds, midnight wrap allowed), `should_delay_appliance`
returns false for every penalty value, including penalty 1.0. -/
theorem protected_window_blocks_action
    (cfg : DeviceAutopilotConfig) (t : LocalDateTime) (sys_now : Int)
    (ws we : Int) (penalty threshold : ℚ)
    (hdel : cfg.is_delegated.getD true = true)
    (hov : cfg.override_active.getD false = false)
    (hen : cfg.protected_window_enabled = some true)
    (hws : cfg.protected_window_start = some ws)
    (hwe : cfg.protected_window_end = some we)
    (hin : windowContains ws we t.tod = true) :
    should_delay_appliance cfg penalty threshold (some t) sys_now = false := by
  simp [should_delay_appliance, protectedWindowAndPenalty, hdel, hov, hen,
    hws, hwe, hin]

/-- Witness for C3: the scenario of the specification — window
22:00-06:00, local time 23:00, penalty 1.0, delegated, no override. -/
theorem protected_window_blocks_action_witness :
    should_delay_appliance demoWindowConfig 1 DEFAULT_PENALTY_THRESHOLD
      (some ⟨1000, 23*3600⟩) 0 = false :=
  protected_window_blocks_action demoWindowConfig ⟨1000, 23*3600⟩ 0
    (22*3600) (6*3600) 1 DEFAULT_PENALTY_THRESHOLD rfl rfl rfl rfl rfl
    (by decide)

/-- C4: for a delegated config with an active override, a set
`override_until` strictly before the supplied current time makes
`should_delay_appliance` behave exactly as if the override were
inactive (it proceeds to the protected-window and penalty checks),
while a null `override_until` makes it return false regardless of the
penalty. -/
theorem override_expiry_and_indefinite :
    (∀ (cfg : DeviceAutopilotConfig) (t : LocalDateTime) (sys_now u : Int)
        (penalty threshold : ℚ),
      cfg.is_delegated.getD true = true →
      cfg.override_active = some true →
      cfg.override_until = some u →
      u < t.abs →
      should_delay_appliance cfg penalty threshold (some t) sys_now =
        should_delay_appliance { cfg with override_active := some false }
          penalty threshold (some t) sys_now) ∧
    (∀ (cfg : DeviceAutopilotConfig) (current_time : Option LocalDateTime)
        (sys_now : Int) (penalty threshold : ℚ),
      cfg.is_delegated.getD true = true →
      cfg.override_active = some true →
      cfg.override_until = none →
      should_delay_appliance cfg penalty threshold current_time sys_now =
        false) := by
  constructor
  · intro cfg t sys_now u penalty threshold hdel hact huntil hlt
    cases cfg
    simp_all [should_delay_appliance, protectedWindowAndPenalty]
  · intro cfg current_time sys_now penalty threshold hdel hact huntil
    simp [should_delay_appliance, hdel, hact, huntil]

/-- Witness for C4: an override that lapsed at instant 5, observed at
instant 1000, behaves as the override-free config; an indefinite
override blocks even penalty 1.0. -/
theorem override_expiry_and_indefinite_witness :
    (should_delay_appliance
        { demoEcoConfig with
          override_active := some true, override_until := some 5 } 1
        DEFAULT_PENALTY_THRESHOLD (some demoNow) 0 =
      should_delay_appliance
        { demoEcoConfig with
          override_active := some false, override_until := some 5 } 1
        DEFAULT_PENALTY_THRESHOLD (some demoNow) 0) ∧
    (should_delay_appliance
        { demoEcoConfig with override_active := some true } 1
        DEFAULT_PENALTY_THRESHOLD (some demoNow) 0 = false) := by
  constructor
  · exact override_expiry_and_indefinite.1 _ demoNow 0 5 1 _ rfl rfl rfl
      (by decide)
  · exact override_expiry_and_indefinite.2 _ (some demoNow) 0 1 _ rfl rfl rfl

/-- C10: a config dict with no `is_delegated` key at all is treated as
delegated (the lookup defaults to True), so it behaves exactly like one
with `is_delegated = true` and can reach the penalty comparison; only
an explicit `is_delegated = false` guarantees a false result. -/
theorem missing_delegation_defaults :
    (∀ (cfg : DeviceAutopilotConfig) (p th : ℚ) (ct : Option LocalDateTime)
        (sy : Int), cfg.is_delegated = none →
      should_delay_appliance cfg p th ct sy =
        should_delay_appliance { cfg with is_delegated := some true } p th
          ct sy) ∧
    (∀ (cfg : DeviceAutopilotConfig) (p th : ℚ) (ct : Option LocalDateTime)
        (sy : Int), cfg.is_delegated = some false →
      should_delay_appliance cfg p th ct sy = false) ∧
    should_delay_appliance demoNoKeyConfig 1 DEFAULT_PENALTY_THRESHOLD
      (some demoNow) 0 = true := by
  refine ⟨?_, ?_, by norm_num [should_delay_appliance,
    protectedWindowAndPenalty, demoNoKeyConfig, demoEcoConfig,
    DEFAULT_PENALTY_THRESHOLD]⟩
  · intro cfg p th ct sy h
    cases cfg
    simp_all [should_delay_appliance, protectedWindowAndPenalty]
  · intro cfg p th ct sy h
    simp [should_delay_appliance, h]

/-- Witness for C10: a keyless config passes the eligibility check at
penalty 1.0 exactly like the explicitly delegated one; an explicitly
non-delegated config is refused. -/
theorem missing_delegation_defaults_witness :
    (should_delay_appliance demoNoKeyConfig 1 DEFAULT_PENALTY_THRESHOLD
        (some demoNow) 0 =
      should_delay_appliance
        { demoNoKeyConfig with is_delegated := some true } 1
        DEFAULT_PENALTY_THRESHOLD (some demoNow) 0) ∧
    (should_delay_appliance
        { demoEcoConfig with is_delegated := some false } 1
        DEFAULT_PENALTY_THRESHOLD (some demoNow) 0 = false) := by
  constructor
  · exact missing_delegation_defaults.1 demoNoKeyConfig 1 _ (some demoNow) 0
      rfl
  · exact missing_delegation_defaults.2.1 _ 1 _ (some demoNow) 0 rfl

/-- Helper: the clamp of penalty_engine.py line 91 lands in [0, 1]. -/
theorem clamp01_mem (x : ℚ) : 0 ≤ clamp01 x ∧ clamp01 x ≤ 1 :=
  ⟨le_min (le_max_right x 0) zero_le_one, min_le_right _ _⟩

/-- Helper: rounding to 4 decimals keeps a value of [0, 1] in [0, 1]. -/
theorem round4_mem {x : ℚ} (h0 : 0 ≤ x) (h1 : x ≤ 1) :
    0 ≤ round4 x ∧ round4 x ≤ 1 := by
  have hlo : (0 : ℤ) ≤ round (x * 10000) := by
    rw [round_eq]
    exact Int.floor_nonneg.2 (by linarith)
  have hhi : round (x * 10000) ≤ 10000 := by
    rw [round_eq]
    have : x * 10000 + 1 / 2 < ((10001 : ℤ) : ℚ) := by push_cast; linarith
    have h := Int.floor_lt.2 this
    omega
  constructor
  · exact div_nonneg (by exact_mod_cast hlo) (by norm_num)
  · unfold round4
    rw [div_le_one (by norm_num : (0:ℚ) < 10000)]
    exact_mod_cast hhi

/-- C7: for every hour, tariff-slot list, carbon profile and strategy
the penalty lies in [0, 1]; when no slot covers the hour the normalized
cost is the 0.5 fallback; when the rate range or the carbon range is
zero the corresponding normalized value is 0.5. -/
theorem penalty_bounds_and_fallbacks :
    (∀ (hour : Int) (slots : List TariffSlot) (profile : List CarbonEntry)
        (strategy : String),
      0 ≤ calculate_hourly_penalty hour slots profile strategy ∧
        calculate_hourly_penalty hour slots profile strategy ≤ 1) ∧
    (∀ (hour : Int) (slots : List TariffSlot),
      _get_slot_for_hour hour slots = none → norm_cost hour slots = 0.5) ∧
    (∀ (hour : Int) (slots : List TariffSlot),
      rateRange slots = 0 → norm_cost hour slots = 0.5) ∧
    (∀ (hour : Int) (profile : List CarbonEntry),
      carbonRange profile = 0 → norm_carbon hour profile = 0.5) := by
  refine ⟨?_, ?_, ?_, ?_⟩
  · intro hour slots profile strategy
    unfold calculate_hourly_penalty
    exact round4_mem (clamp01_mem _).1 (clamp01_mem _).2
  · intro hour slots h
    simp [norm_cost, h]
  · intro hour slots h
    unfold norm_cost
    cases heq : _get_slot_for_hour hour slots <;> simp [h, heq]
  · intro hour profile h
    unfold norm_carbon
    simp [h]

/-- Witness for C7: the specification scenario values — peak hour 19 of
the demo plan with an empty carbon profile (fallbacks engaged). -/
theorem penalty_bounds_and_fallbacks_witness :
    (0 ≤ calculate_hourly_penalty 19 demoSlots [] "max_savings" ∧
      calculate_hourly_penalty 19 demoSlots [] "max_savings" ≤ 1) ∧
    norm_cost 25 [] = 0.5 ∧
    norm_cost 19 [⟨0, 24, 7, "normal"⟩] = 0.5 ∧
    norm_carbon 19 [] = 0.5 := by
  refine ⟨penalty_bounds_and_fallbacks.1 19 demoSlots [] "max_savings",
    penalty_bounds_and_fallbacks.2.1 25 [] rfl,
    penalty_bounds_and_fallbacks.2.2.1 19 [⟨0, 24, 7, "normal"⟩] ?_,
    penalty_bounds_and_fallbacks.2.2.2 19 [] ?_⟩
  · simp [rateRange, qMaxList, qMinList]
  · simp [carbonRange, carbonValues, buildCarbonMap, qMaxList, qMinList]

/-- C8: the max_savings penalty is the same for any two carbon
profiles, and the eco_mode penalty is the same for any two tariff-slot
lists (two-run noninterference of the unused input). -/
theorem strategy_noninterference :
    (∀ (hour : Int) (slots : List TariffSlot)
        (p1 p2 : List CarbonEntry),
      calculate_hourly_penalty hour slots p1 "max_savings" =
        calculate_hourly_penalty hour slots p2 "max_savings") ∧
    (∀ (hour : Int) (s1 s2 : List TariffSlot)
        (profile : List CarbonEntry),
      calculate_hourly_penalty hour s1 profile "eco_mode" =
        calculate_hourly_penalty hour s2 profile "eco_mode") := by
  constructor
  · intro hour slots p1 p2
    unfold calculate_hourly_penalty STRATEGY_WEIGHTS
    norm_num [show ¬ (("max_savings" : String) = "balanced") from by decide]
  · intro hour s1 s2 profile
    unfold calculate_hourly_penalty STRATEGY_WEIGHTS
    norm_num [show ¬ (("eco_mode" : String) = "balanced") from by decide,
      show ¬ (("eco_mode" : String) = "max_savings") from by decide]

/-- Helper: at the peak hour 19 of the demo plan the max_savings
penalty is exactly 1 (the specification's own scenario value). -/
theorem demo_penalty_peak :
    calculate_hourly_penalty 19 demoSlots [] "max_savings" = 1 := by
  have h1 : _get_slot_for_hour 19 demoSlots =
      some ⟨18, 22, 9.55, "peak"⟩ := by
    norm_num [_get_slot_for_hour, demoSlots, List.find?, slotMatches]
  have h2 : rateRange demoSlots = 4.55 := by
    simp [rateRange, demoSlots, qMaxList, qMinList, max_def, min_def]
    norm_num
  have h3 : norm_carbon 19 [] = 0.5 := by
    norm_num [norm_carbon, carbonRange, carbonValues, buildCarbonMap,
      qMaxList, qMinList]
  have h4 : norm_cost 19 demoSlots = 1 := by
    unfold norm_cost
    rw [h1, h2]
    norm_num [demoSlots, qMinList, min_def]
  unfold calculate_hourly_penalty STRATEGY_WEIGHTS
  rw [if_neg (by decide : ¬ (("max_savings":String) = "balanced")),
    if_pos rfl]
  norm_num [h3, h4, clamp01, round4, max_def, min_def]

/-- Helper: full result of the first eco-mode trigger on the demo home
(high penalty hour, delegated AC that is ON with eco off): the snapshot
captures (ON, eco off), then eco mode is enabled. -/
theorem demo_eco_run1 :
    execute_strategy_action alwaysOk demoDbEco 1 true "max_savings"
      demoSlots [] "penalty_threshold" demoNow =
    some ⟨demoDbEcoAfter, [DeviceCall.setEcoMode 1 true],
      [⟨1, "eco_mode", true, false⟩], []⟩ := by
  unfold execute_strategy_action
  norm_num [demoNow, demo_penalty_peak, DEFAULT_PENALTY_THRESHOLD,
    demoDbEco, demoAppliance, demoEcoConfig, stratLoop, stratProcessDevice,
    should_delay_appliance, protectedWindowAndPenalty, _is_user_override,
    latestRecentLog, upsertSavedState, savedKey, _log_action, setEcoFlag,
    setStatus, ecoSupported, alwaysOk]
  decide

/-- Helper: full result of a second eco-mode trigger before any
restore: the appliance is still ON (not OFF), so the loop body runs
`_save_state` again and the upsert overwrites the snapshot with the
state at the second trigger — eco now on — before the eco action
itself is skipped as a no-op. -/
theorem demo_eco_run2 :
    execute_strategy_action alwaysOk demoDbEcoAfter 1 true "max_savings"
      demoSlots [] "penalty_threshold" demoNow =
    some ⟨⟨[{ demoAppliance with eco_mode_enabled := some true }],
      [demoEcoConfig],
      ⟨[⟨0, 1, 1, .on, some true, "penalty_threshold", false⟩], 1⟩,
      [⟨1, "eco_mode_on", "autopilot_penalty_threshold", true, 1000000⟩]⟩,
      [], [], []⟩ := by
  unfold execute_strategy_action
  norm_num [demoNow, demo_penalty_peak, DEFAULT_PENALTY_THRESHOLD,
    demoDbEcoAfter, demoAppliance, demoEcoConfig, stratLoop,
    stratProcessDevice, should_delay_appliance, protectedWindowAndPenalty,
    _is_user_override, latestRecentLog, upsertSavedState, savedKey,
    _log_action, setEcoFlag, setStatus, ecoSupported, alwaysOk]
  decide

/-- Helper: full result of the first turn-off trigger on the demo
home. -/
theorem demo_off_run1 :
    execute_strategy_action alwaysOk demoDbOff 1 true "max_savings"
      demoSlots [] "penalty_threshold" demoNow =
    some ⟨demoDbOffAfter, [DeviceCall.turnOff 1],
      [⟨1, "turn_off", true, false⟩], []⟩ := by
  unfold execute_strategy_action
  norm_num [demoNow, demo_penalty_peak, DEFAULT_PENALTY_THRESHOLD,
    demoDbOff, demoAppliance, demoEcoConfig, demoOffConfig, stratLoop,
    stratProcessDevice, should_delay_appliance, protectedWindowAndPenalty,
    _is_user_override, latestRecentLog, upsertSavedState, savedKey,
    _log_action, setEcoFlag, setStatus, ecoSupported, alwaysOk]
  decide

/-- Helper: a second turn-off trigger before any restore skips the
already-OFF appliance — no device call, no second save, the snapshot
keeps the first pre-action state. -/
theorem demo_off_run2 :
    execute_strategy_action alwaysOk demoDbOffAfter 1 true "max_savings"
      demoSlots [] "penalty_threshold" demoNow =
    some ⟨demoDbOffAfter, [], [], []⟩ := by
  unfold execute_strategy_action
  norm_num [demoNow, demo_penalty_peak, DEFAULT_PENALTY_THRESHOLD,
    demoDbOffAfter, demoAppliance, demoEcoConfig, demoOffConfig, stratLoop,
    stratProcessDevice, should_delay_appliance, protectedWindowAndPenalty,
    _is_user_override, latestRecentLog, upsertSavedState, savedKey,
    _log_action, setEcoFlag, setStatus, ecoSupported, alwaysOk]

/-- Counterexample to C1: triggering the action executor twice for the
same `(home, appliance, triggerClass)` key before any restore, with
preferred action eco_mode, leaves a single unrestored snapshot row that
carries the pre-action state captured at the SECOND trigger (eco mode
already on, `prev_eco_mode = some true`), not the first
(`prev_eco_mode = some false`): the second trigger re-saves before
noticing the action is a no-op, and the upsert supersedes the first
capture. -/
theorem snapshot_first_state_counterexample :
    ((execute_strategy_action alwaysOk demoDbEco 1 true "max_savings"
        demoSlots [] "penalty_threshold" demoNow).map
      (fun o => o.db.saved.rows)) =
      some [⟨0, 1, 1, .on, some false, "penalty_threshold", false⟩] ∧
    ((execute_strategy_action alwaysOk demoDbEco 1 true "max_savings"
        demoSlots [] "penalty_threshold" demoNow).bind
      (fun o => execute_strategy_action alwaysOk o.db 1 true "max_savings"
        demoSlots [] "penalty_threshold" demoNow)).map
      (fun o => o.db.saved.rows) =
      some [⟨0, 1, 1, .on, some true, "penalty_threshold", false⟩] := by
  rw [demo_eco_run1]
  constructor
  · simp [demoDbEcoAfter]
  · simp only [Option.some_bind]
    rw [demo_eco_run2]
    simp

/-- Helper: every row of the snapshot table left by a key-unique table
keeps pairwise-distinct conflict keys under the `_save_state` upsert. -/
theorem savedKey_ne_of_any_eq_false {rows : List SavedState}
    {k : Nat × Nat × String}
    (h : rows.any (fun r => savedKey r = k) = false) :
    ∀ r ∈ rows, savedKey r ≠ k := by
  intro r hr
  have := List.any_eq_false.1 h r hr
  simpa using this

/-- Helper: the `_save_state` upsert preserves key uniqueness. -/
theorem keyUnique_upsertSavedState (tbl : SavedTable) (home aid : Nat)
    (st : ApplianceStatus) (eco : Bool) (trig : String)
    (h : KeyUnique tbl.rows) :
    KeyUnique (upsertSavedState tbl home aid st eco trig).rows := by
  unfold upsertSavedState KeyUnique
  split
  · rw [List.pairwise_map]
    refine h.imp ?_
    intro a b hab
    by_cases ha : savedKey a = (home, aid, trig) <;>
      by_cases hb : savedKey b = (home, aid, trig) <;>
      simp only [ha, hb, if_pos, if_neg, if_true, if_false] <;>
      simpa [savedKey] using hab
  · rename_i hany
    rw [List.pairwise_append]
    refine ⟨h, List.pairwise_singleton _ _, ?_⟩
    intro a ha b hb
    have hne := savedKey_ne_of_any_eq_false (by simpa using hany) a ha
    simp only [List.mem_singleton] at hb
    subst hb
    simpa [savedKey] using hne

/-- Helper: the grid-protection upsert preserves key uniqueness. -/
theorem keyUnique_upsertGridSavedState (tbl : SavedTable) (home aid : Nat)
    (st : ApplianceStatus) (h : KeyUnique tbl.rows) :
    KeyUnique (upsertGridSavedState tbl home aid st).rows := by
  unfold upsertGridSavedState KeyUnique
  split
  · rw [List.pairwise_map]
    refine h.imp ?_
    intro a b hab
    by_cases ha : savedKey a = (home, aid, "grid_event") <;>
      by_cases hb : savedKey b = (home, aid, "grid_event") <;>
      simp only [ha, hb, if_pos, if_neg, if_true, if_false] <;>
      simpa [savedKey] using hab
  · rename_i hany
    rw [List.pairwise_append]
    refine ⟨h, List.pairwise_singleton _ _, ?_⟩
    intro a ha b hb
    have hne := savedKey_ne_of_any_eq_false (by simpa using hany) a ha
    simp only [List.mem_singleton] at hb
    subst hb
    simpa [savedKey] using hne

/-- Helper: marking a snapshot restored changes no conflict key. -/
theorem keyUnique_markRestoredById (tbl : SavedTable) (rid : Nat)
    (h : KeyUnique tbl.rows) :
    KeyUnique (markRestoredById tbl rid).rows := by
  unfold markRestoredById KeyUnique
  rw [List.pairwise_map]
  refine h.imp ?_
  intro a b hab
  by_cases ha : a.id = rid <;> by_cases hb : b.id = rid <;>
    simp only [ha, hb, if_pos, if_neg, if_true, if_false] <;>
    simpa [savedKey] using hab

/-- Helper: key uniqueness gives at most one live row per key. -/
theorem atMostOneLive_of_keyUnique :
    ∀ {rows : List SavedState}, KeyUnique rows → AtMostOneLive rows := by
  intro rows h k
  induction rows with
  | nil => simp
  | cons r rs ih =>
    rw [KeyUnique, List.pairwise_cons] at h
    by_cases hp : (!r.restored && savedKey r == k) = true
    · rw [List.filter_cons, if_pos hp]
      have hk : savedKey r = k := by
        simp only [Bool.and_eq_true, beq_iff_eq] at hp
        exact hp.2
      have hnil : rs.filter (fun x => !x.restored && savedKey x == k) = [] := by
        rw [List.filter_eq_nil_iff]
        intro b hb hpb
        have hkb : savedKey b = k := by
          simp only [Bool.and_eq_true, beq_iff_eq] at hpb
          exact hpb.2
        exact h.1 b hb (hk.trans hkb.symm)
      simp [hnil]
    · rw [List.filter_cons, if_neg hp]
      exact ih h.2

/-- Helper: after a `_save_state` upsert, every row at the saved key is
live and carries exactly the payload of that (most recent) save. -/
theorem upsert_supersedes (tbl : SavedTable) (home aid : Nat)
    (st : ApplianceStatus) (eco : Bool) (trig : String) :
    ∀ r ∈ (upsertSavedState tbl home aid st eco trig).rows,
      savedKey r = (home, aid, trig) →
      r.prev_status = st ∧ r.prev_eco_mode = some eco ∧
        r.restored = false := by
  unfold upsertSavedState
  split
  · intro r hr hk
    obtain ⟨r0, hr0, rfl⟩ := List.mem_map.1 hr
    by_cases h0 : savedKey r0 = (home, aid, trig)
    · simp [h0]
    · rw [if_neg h0] at hk ⊢
      exact absurd hk h0
  · rename_i hany
    intro r hr hk
    rcases List.mem_append.1 hr with hl | hr1
    · exact absurd hk (savedKey_ne_of_any_eq_false (by simpa using hany) r hl)
    · simp only [List.mem_singleton] at hr1
      subst hr1
      simp

/-- C1 (amended): the snapshot upserts and the restore-side update all
preserve at-most-one-row-per-key, hence at any time there is at most
one live (unrestored) SavedState per `(home, appliance, triggerClass)`;
a save for an existing key supersedes it — the live row carries the
state of the MOST RECENT save; and in the turn-off path a second
trigger before restore performs no second save (the appliance is
already OFF and is skipped), so there the snapshot still carries the
state captured at the first trigger. -/
theorem snapshot_invariant_amended :
    (∀ (tbl : SavedTable) (home aid : Nat) (st : ApplianceStatus)
        (eco : Bool) (trig : String), KeyUnique tbl.rows →
      KeyUnique (upsertSavedState tbl home aid st eco trig).rows) ∧
    (∀ (tbl : SavedTable) (home aid : Nat) (st : ApplianceStatus),
      KeyUnique tbl.rows →
      KeyUnique (upsertGridSavedState tbl home aid st).rows) ∧
    (∀ (tbl : SavedTable) (rid : Nat), KeyUnique tbl.rows →
      KeyUnique (markRestoredById tbl rid).rows) ∧
    (∀ rows : List SavedState, KeyUnique rows → AtMostOneLive rows) ∧
    (∀ (tbl : SavedTable) (home aid : Nat) (st : ApplianceStatus)
        (eco : Bool) (trig : String),
      ∀ r ∈ (upsertSavedState tbl home aid st eco trig).rows,
        savedKey r = (home, aid, trig) →
        r.prev_status = st ∧ r.prev_eco_mode = some eco ∧
          r.restored = false) ∧
    ((execute_strategy_action alwaysOk demoDbOff 1 true "max_savings"
        demoSlots [] "penalty_threshold" demoNow).bind
      (fun o => execute_strategy_action alwaysOk o.db 1 true "max_savings"
        demoSlots [] "penalty_threshold" demoNow)).map
      (fun o => (o.db.saved.rows, o.calls)) =
      some ([⟨0, 1, 1, .on, some false, "penalty_threshold", false⟩], []) := by
  refine ⟨keyUnique_upsertSavedState, keyUnique_upsertGridSavedState,
    keyUnique_markRestoredById, fun rows h => atMostOneLive_of_keyUnique h,
    upsert_supersedes, ?_⟩
  rw [demo_off_run1]
  simp only [Option.some_bind]
  rw [demo_off_run2]
  simp [demoDbOffAfter]

/-- Witness for the amended C1: the invariant lemmas applied to the
demo table left by the first turn-off trigger. -/
theorem snapshot_invariant_amended_witness :
    KeyUnique (upsertSavedState ⟨[], 0⟩ 1 1 .on false
      "penalty_threshold").rows ∧
    AtMostOneLive (upsertSavedState ⟨[], 0⟩ 1 1 .on false
      "penalty_threshold").rows := by
  have h0 : KeyUnique (SavedTable.rows ⟨[], 0⟩) := List.Pairwise.nil
  have h1 := snapshot_invariant_amended.1 ⟨[], 0⟩ 1 1 .on false
    "penalty_threshold" h0
  exact ⟨h1, snapshot_invariant_amended.2.2.2.1 _ h1⟩

/-- C2: a warning- or critical-severity grid event on a home with
exactly one delegated, controllable, ON appliance whose config has no
active override issues exactly one turnOff device call, creates exactly
one unrestored snapshot tagged `grid_event`, and records exactly one
action entry with result success (the entry of the `actions_taken`
summary appended at grid_protection.py lines 241-247; this path writes
no `control_logs` row). The boundary is the always-succeeding adapter
as written. -/
theorem grid_event_single_device
    (severity : String) (a : Appliance) (cfg : DeviceAutopilotConfig)
    (home : Nat)
    (hsev : severity = "warning" ∨ severity = "critical")
    (hhome : cfg.home_id = home)
    (haid : cfg.appliance_id = a.id)
    (hdel : cfg.is_delegated = some true)
    (hov : cfg.override_active.getD false = false)
    (hon : a.status = .on)
    (hctl : a.is_controllable.getD true = true) :
    (handle_grid_event alwaysOk ⟨[a], [cfg], ⟨[], 0⟩, []⟩ severity
        [home]).calls = [DeviceCall.turnOff a.id] ∧
    (handle_grid_event alwaysOk ⟨[a], [cfg], ⟨[], 0⟩, []⟩ severity
        [home]).actions = [⟨a.id, "emergency_off", true, false⟩] ∧
    ((handle_grid_event alwaysOk ⟨[a], [cfg], ⟨[], 0⟩, []⟩ severity
        [home]).db.saved.rows.filter
      (fun r => !r.restored && r.trigger_type == "grid_event")) =
      [⟨0, home, a.id, .on, none, "grid_event", false⟩] := by
  have hgate : (severity == "warning" || severity == "critical") = true := by
    rcases hsev with h | h <;> simp [h]
  refine ⟨?_, ?_, ?_⟩ <;>
    simp [handle_grid_event, hgate, handle_grid_event_home, gridRowsFor,
      gridHomeLoop, gridProcessRow, upsertGridSavedState, setStatus,
      savedKey, alwaysOk, hhome, haid, hdel, hov, hon, hctl]

/-- Witness for C2: severity critical on the single-AC demo home. -/
theorem grid_event_single_device_witness :
    (handle_grid_event alwaysOk ⟨[demoAppliance], [demoEcoConfig],
        ⟨[], 0⟩, []⟩ "critical" [1]).calls = [DeviceCall.turnOff 1] ∧
    (handle_grid_event alwaysOk ⟨[demoAppliance], [demoEcoConfig],
        ⟨[], 0⟩, []⟩ "critical" [1]).actions =
      [⟨1, "emergency_off", true, false⟩] ∧
    ((handle_grid_event alwaysOk ⟨[demoAppliance], [demoEcoConfig],
        ⟨[], 0⟩, []⟩ "critical" [1]).db.saved.rows.filter
      (fun r => !r.restored && r.trigger_type == "grid_event")) =
      [⟨0, 1, 1, .on, none, "grid_event", false⟩] :=
  grid_event_single_device "critical" demoAppliance demoEcoConfig 1
    (Or.inr rfl) rfl rfl rfl rfl rfl rfl

/-- C6: in both reconciliation passes, an unrestored snapshot whose
`prev_status` was active (ON or WARNING) but whose appliance is already
ON again is marked restored with zero device-control calls. Stated for
a one-snapshot pool under every boundary behaviour. -/
theorem restore_respects_world_state
    (r : SavedState) (a : Appliance) (home nid : Nat) (beh : DeviceBeh)
    (now : LocalDateTime) (cfgs : List DeviceAutopilotConfig)
    (logs : List ControlLog)
    (hprev : r.prev_status = .on ∨ r.prev_status = .warning)
    (hunres : r.restored = false)
    (haid : a.id = r.appliance_id)
    (hstat : a.status = .on) :
    (r.home_id = home → r.trigger_type ≠ "grid_event" →
      (execute_strategy_restore beh ⟨[a], cfgs, ⟨[r], nid⟩, logs⟩ home
          now).calls = [] ∧
      (execute_strategy_restore beh ⟨[a], cfgs, ⟨[r], nid⟩, logs⟩ home
          now).db.saved.rows = [{ r with restored := true }]) ∧
    (r.trigger_type = "grid_event" →
      (restore_after_grid_event beh ⟨[a], cfgs, ⟨[r], nid⟩, logs⟩).calls =
        [] ∧
      (restore_after_grid_event beh
          ⟨[a], cfgs, ⟨[r], nid⟩, logs⟩).db.saved.rows =
        [{ r with restored := true }]) := by
  constructor
  · intro hh ht
    have hrows : stratRestoreRows ⟨[a], cfgs, ⟨[r], nid⟩, logs⟩ home =
        [(r, some ⟨a.id, a.status, a.is_controllable, none⟩)] := by
      simp [stratRestoreRows, hh, hunres, ht, joinAppliance, haid]
    rcases hprev with h | h <;>
      simp [execute_strategy_restore, hrows, stratRestoreLoop,
        stratRestoreStep, markRestoredById, h, hstat, haid]
  · intro ht
    have hrows : gridRestoreRows ⟨[a], cfgs, ⟨[r], nid⟩, logs⟩ =
        [(r, some ⟨a.id, a.status, a.is_controllable, none⟩)] := by
      simp [gridRestoreRows, hunres, ht, joinAppliance, haid]
    rcases hprev with h | h <;>
      simp [restore_after_grid_event, hrows, gridRestoreLoop,
        gridRestoreStep, markRestoredById, h, hstat, haid]

/-- Witness for C6: a `prev_status = ON` snapshot in each pool with the
appliance already ON. -/
theorem restore_respects_world_state_witness :
    ((execute_strategy_restore alwaysOk ⟨[demoAppliance], [],
        ⟨[⟨7, 1, 1, .on, some false, "penalty_threshold", false⟩], 8⟩, []⟩
        1 demoNow).calls = [] ∧
      (execute_strategy_restore alwaysOk ⟨[demoAppliance], [],
        ⟨[⟨7, 1, 1, .on, some false, "penalty_threshold", false⟩], 8⟩, []⟩
        1 demoNow).db.saved.rows =
        [⟨7, 1, 1, .on, some false, "penalty_threshold", true⟩]) ∧
    ((restore_after_grid_event alwaysOk ⟨[demoAppliance], [],
        ⟨[⟨7, 1, 1, .on, none, "grid_event", false⟩], 8⟩, []⟩).calls = [] ∧
      (restore_after_grid_event alwaysOk ⟨[demoAppliance], [],
        ⟨[⟨7, 1, 1, .on, none, "grid_event", false⟩], 8⟩, []⟩).db.saved.rows
        = [⟨7, 1, 1, .on, none, "grid_event", true⟩]) := by
  constructor
  · exact (restore_respects_world_state
      ⟨7, 1, 1, .on, some false, "penalty_threshold", false⟩ demoAppliance
      1 8 alwaysOk demoNow [] [] (Or.inl rfl) rfl rfl rfl).1 rfl
      (by decide)
  · exact (restore_respects_world_state
      ⟨7, 1, 1, .on, none, "grid_event", false⟩ demoAppliance
      1 8 alwaysOk demoNow [] [] (Or.inl rfl) rfl rfl rfl).2 rfl

/-- Counterexample to C5: a live `grid_event` snapshot whose
`prev_status` is SCHEDULED (not an active state; such rows are created
by `handle_grid_event` on a SCHEDULED appliance) is NOT marked restored
by the grid-event reconciliation pass — the loop skips it without
touching `restored_at` (grid_protection.py lines 308-310) — although it
also issues no device call. The claim that both paths mark such
snapshots restored is therefore false. -/
theorem grid_restore_nonactive_counterexample :
    (restore_after_grid_event alwaysOk ⟨[demoAppliance], [],
      ⟨[⟨7, 1, 1, .scheduled, none, "grid_event", false⟩], 8⟩, []⟩).calls =
      [] ∧
    (restore_after_grid_event alwaysOk ⟨[demoAppliance], [],
      ⟨[⟨7, 1, 1, .scheduled, none, "grid_event", false⟩], 8⟩,
      []⟩).db.saved.rows =
      [⟨7, 1, 1, .scheduled, none, "grid_event", false⟩] := by
  constructor <;> decide

/-- C5 (amended): an unrestored snapshot whose `prev_status` is not an
active state (not ON and not WARNING) is handled without any
device-control call by both passes, but only the STRATEGY pass marks it
restored; the grid-event pass skips it entirely and leaves it
unrestored. Stated for a one-snapshot pool under every boundary
behaviour. -/
theorem nonactive_snapshot_restore_amended
    (r : SavedState) (a : Appliance) (home nid : Nat) (beh : DeviceBeh)
    (now : LocalDateTime) (cfgs : List DeviceAutopilotConfig)
    (logs : List ControlLog)
    (hpon : r.prev_status ≠ .on) (hpw : r.prev_status ≠ .warning)
    (hunres : r.restored = false)
    (haid : a.id = r.appliance_id) :
    (r.home_id = home → r.trigger_type ≠ "grid_event" →
      (execute_strategy_restore beh ⟨[a], cfgs, ⟨[r], nid⟩, logs⟩ home
          now).calls = [] ∧
      (execute_strategy_restore beh ⟨[a], cfgs, ⟨[r], nid⟩, logs⟩ home
          now).db.saved.rows = [{ r with restored := true }]) ∧
    (r.trigger_type = "grid_event" →
      (restore_after_grid_event beh ⟨[a], cfgs, ⟨[r], nid⟩, logs⟩).calls =
        [] ∧
      (restore_after_grid_event beh
          ⟨[a], cfgs, ⟨[r], nid⟩, logs⟩).db.saved.rows = [r]) := by
  constructor
  · intro hh ht
    have hrows : stratRestoreRows ⟨[a], cfgs, ⟨[r], nid⟩, logs⟩ home =
        [(r, some ⟨a.id, a.status, a.is_controllable, none⟩)] := by
      simp [stratRestoreRows, hh, hunres, ht, joinAppliance, haid]
    simp [execute_strategy_restore, hrows, stratRestoreLoop,
      stratRestoreStep, markRestoredById, hpon, hpw]
  · intro ht
    have hrows : gridRestoreRows ⟨[a], cfgs, ⟨[r], nid⟩, logs⟩ =
        [(r, some ⟨a.id, a.status, a.is_controllable, none⟩)] := by
      simp [gridRestoreRows, hunres, ht, joinAppliance, haid]
    simp [restore_after_grid_event, hrows, gridRestoreLoop,
      gridRestoreStep, hpon, hpw]

/-- Witness for the amended C5: a SCHEDULED-prev snapshot in each pool:
the strategy pass marks it restored, the grid pass leaves it as is,
neither issues a call. -/
theorem nonactive_snapshot_restore_amended_witness :
    ((execute_strategy_restore alwaysOk ⟨[demoAppliance], [],
        ⟨[⟨7, 1, 1, .scheduled, some false, "penalty_threshold", false⟩],
          8⟩, []⟩ 1 demoNow).calls = [] ∧
      (execute_strategy_restore alwaysOk ⟨[demoAppliance], [],
        ⟨[⟨7, 1, 1, .scheduled, some false, "penalty_threshold", false⟩],
          8⟩, []⟩ 1 demoNow).db.saved.rows =
        [⟨7, 1, 1, .scheduled, some false, "penalty_threshold", true⟩]) ∧
    ((restore_after_grid_event alwaysOk ⟨[demoAppliance], [],
        ⟨[⟨7, 1, 1, .scheduled, none, "grid_event", false⟩], 8⟩,
        []⟩).calls = [] ∧
      (restore_after_grid_event alwaysOk ⟨[demoAppliance], [],
        ⟨[⟨7, 1, 1, .scheduled, none, "grid_event", false⟩], 8⟩,
        []⟩).db.saved.rows =
        [⟨7, 1, 1, .scheduled, none, "grid_event", false⟩]) := by
  constructor
  · exact (nonactive_snapshot_restore_amended
      ⟨7, 1, 1, .scheduled, some false, "penalty_threshold", false⟩
      demoAppliance 1 8 alwaysOk demoNow [] [] (by decide) (by decide)
      rfl rfl).1 rfl (by decide)
  · exact (nonactive_snapshot_restore_amended
      ⟨7, 1, 1, .scheduled, none, "grid_event", false⟩
      demoAppliance 1 8 alwaysOk demoNow [] [] (by decide) (by decide)
      rfl rfl).2 rfl

/-- Helper: the summary contribution of a device in the grid loop is a
function of its own row alone, independent of the threaded database. -/
theorem gridProcessRow_outcome (beh : DeviceBeh) (home : Nat)
    (st : Database) (row : DeviceAutopilotConfig × Option Appliance) :
    (gridProcessRow beh home st row).2.2 = gridOutcome beh row := by
  rcases row with ⟨c, app⟩
  cases app with
  | none => rfl
  | some a =>
    simp only [gridProcessRow, gridOutcome]
    split_ifs <;>
      first
        | rfl
        | (cases beh (DeviceCall.turnOff a.id) <;> rfl)

/-- Helper: the grid loop's summary is the per-device map of outcomes. -/
theorem gridHomeLoop_actions (beh : DeviceBeh) (home : Nat) :
    ∀ (st : Database)
      (rows : List (DeviceAutopilotConfig × Option Appliance)),
      (gridHomeLoop beh home st rows).2.2 =
        rows.filterMap (gridOutcome beh) := by
  intro st rows
  induction rows generalizing st with
  | nil => rfl
  | cons r rest ih =>
    have hstep := gridProcessRow_outcome beh home st r
    simp only [gridHomeLoop, List.filterMap_cons, ← hstep,
      ih (gridProcessRow beh home st r).1]
    cases (gridProcessRow beh home st r).2.2 <;> simp

/-- Helper: appending `control_logs` rows for other appliances does not
change `_is_user_override` for a given appliance. -/
theorem is_user_override_append (logs tail : List ControlLog) (aid : Nat)
    (now : LocalDateTime) (h : ∀ l ∈ tail, l.appliance_id ≠ aid) :
    _is_user_override (logs ++ tail) aid now =
      _is_user_override logs aid now := by
  unfold _is_user_override
  have htail : tail.filter (fun l =>
      l.appliance_id == aid && decide (l.created_at ≥ now.abs - 300)) =
      [] := by
    rw [List.filter_eq_nil_iff]
    intro l hl
    simp [h l hl]
  rw [List.filter_append, htail, List.append_nil]

/-- Helper: a device's outcome reads the log table only at its own
appliance id. -/
theorem stratOutcome_logs_append (beh : DeviceBeh) (now : LocalDateTime)
    (penalty : ℚ) (apps : List Appliance) (logs tail : List ControlLog)
    (cfg : DeviceAutopilotConfig)
    (h : ∀ l ∈ tail, l.appliance_id ≠ cfg.appliance_id) :
    stratOutcome beh now penalty apps (logs ++ tail) cfg =
      stratOutcome beh now penalty apps logs cfg := by
  unfold stratOutcome
  rw [is_user_override_append _ _ _ _ h]

/-- Helper: pushing a projection through an option match. -/
theorem option_match_outcome (o : Option Bool)
    (f : Bool → Database × List DeviceCall × Option ActionEntry)
    (x : Database × List DeviceCall × Option ActionEntry) :
    (match o with | none => x | some s => f s).2.2 =
      (match o with | none => x.2.2 | some s => (f s).2.2) := by
  cases o <;> rfl

/-- Helper: the summary contribution of a device in the strategy action
loop is the outcome function of its config, the prefetched appliance
map and the logs present when its iteration started. -/
theorem stratProcessDevice_outcome (beh : DeviceBeh) (home : Nat)
    (now : LocalDateTime) (penalty : ℚ) (trigger : String)
    (apps : List Appliance) (st : Database)
    (cfg : DeviceAutopilotConfig) :
    (stratProcessDevice beh home now penalty trigger apps st cfg).2.2 =
      stratOutcome beh now penalty apps st.logs cfg := by
  cases hfind : apps.find? (fun a => a.id == cfg.appliance_id) with
  | none => simp [stratProcessDevice, stratOutcome, hfind]
  | some a =>
    simp only [stratProcessDevice, stratOutcome, hfind,
      apply_ite (fun x : Database × List DeviceCall × Option ActionEntry =>
        x.2.2), option_match_outcome]

/-- Helper: processing one device appends only its own log rows, so a
different device's outcome is unchanged by it. -/
theorem stratProcessDevice_logs_outcome (beh : DeviceBeh) (home : Nat)
    (now : LocalDateTime) (penalty : ℚ) (trigger : String)
    (apps : List Appliance) (st : Database)
    (c c' : DeviceAutopilotConfig)
    (hne : c.appliance_id ≠ c'.appliance_id) :
    stratOutcome beh now penalty apps
      (stratProcessDevice beh home now penalty trigger apps st c).1.logs
      c' = stratOutcome beh now penalty apps st.logs c' := by
  have hlog : ∀ action source s,
      stratOutcome beh now penalty apps
        (_log_action st.logs c.appliance_id action source s now.abs) c' =
      stratOutcome beh now penalty apps st.logs c' := by
    intro action source s
    unfold _log_action
    refine stratOutcome_logs_append beh now penalty apps _ _ c' ?_
    intro l hl
    simp only [List.mem_singleton] at hl
    subst hl
    exact hne
  cases hfind : apps.find? (fun a => a.id == c.appliance_id) with
  | none => simp [stratProcessDevice, hfind]
  | some a =>
    simp only [stratProcessDevice, hfind]
    simp only [apply_ite (fun x : Database × List DeviceCall ×
      Option ActionEntry =>
        (stratOutcome beh now penalty apps x.1.logs c'))]
    have hmatch : ∀ (o : Option Bool)
        (f : Bool → Database × List DeviceCall × Option ActionEntry)
        (x : Database × List DeviceCall × Option ActionEntry),
        stratOutcome beh now penalty apps
            (match o with | none => x | some s => f s).1.logs c' =
          (match o with
            | none => stratOutcome beh now penalty apps x.1.logs c'
            | some s =>
              stratOutcome beh now penalty apps (f s).1.logs c') := by
      intro o f x
      cases o <;> rfl
    simp only [hmatch]
    split_ifs <;> (try cases beh (DeviceCall.turnOff c.appliance_id)) <;>
      (try cases beh (DeviceCall.setEcoMode c.appliance_id true)) <;>
      simp [hlog]

/-- Helper: the strategy action loop's summary is the per-device map of
outcomes over the initial logs, when the batch has pairwise-distinct
appliance ids. -/
theorem stratLoop_actions (beh : DeviceBeh) (home : Nat)
    (now : LocalDateTime) (penalty : ℚ) (trigger : String)
    (apps : List Appliance) :
    ∀ (st : Database) (cfgs : List DeviceAutopilotConfig),
      cfgs.Pairwise (fun c c' => c.appliance_id ≠ c'.appliance_id) →
      (stratLoop beh home now penalty trigger apps st cfgs).2.2 =
        cfgs.filterMap (stratOutcome beh now penalty apps st.logs) := by
  intro st cfgs
  induction cfgs generalizing st with
  | nil => intro _; rfl
  | cons c rest ih =>
    intro hp
    rw [List.pairwise_cons] at hp
    have hstep := stratProcessDevice_outcome beh home now penalty trigger
      apps st c
    have hcong : ∀ c' ∈ rest,
        stratOutcome beh now penalty apps
          (stratProcessDevice beh home now penalty trigger apps st
            c).1.logs c' =
          stratOutcome beh now penalty apps st.logs c' :=
      fun c' hc' => stratProcessDevice_logs_outcome beh home now penalty
        trigger apps st c c' (hp.1 c' hc')
    simp only [stratLoop, List.filterMap_cons, ← hstep,
      ih (stratProcessDevice beh home now penalty trigger apps st c).1
        hp.2,
      List.filterMap_congr hcong]
    cases (stratProcessDevice beh home now penalty trigger apps st
      c).2.2 <;> simp

/-- Helper: the summary and error contributions of one snapshot in the
strategy restore loop depend on its own row alone. -/
theorem stratRestoreStep_outcome (beh : DeviceBeh) (now : LocalDateTime)
    (st : Database) (row : SavedState × Option JoinedAppliance) :
    (stratRestoreStep beh now st row).2.2.1 =
        (stratRestoreOutcome beh row).1 ∧
      (stratRestoreStep beh now st row).2.2.2 =
        (stratRestoreOutcome beh row).2 := by
  rcases row with ⟨entry, app⟩
  cases app with
  | none => exact ⟨rfl, rfl⟩
  | some a =>
    simp only [stratRestoreStep, stratRestoreOutcome]
    split_ifs <;>
      first
        | exact ⟨rfl, rfl⟩
        | (cases beh (DeviceCall.turnOn entry.appliance_id) <;>
            first
              | exact ⟨rfl, rfl⟩
              | (cases beh (DeviceCall.setEcoMode entry.appliance_id
                  false) <;> constructor <;> simp))

/-- Helper: the strategy restore loop's summary and error lists are the
per-snapshot maps of outcomes. -/
theorem stratRestoreLoop_outcomes (beh : DeviceBeh) (now : LocalDateTime) :
    ∀ (st : Database) (rows : List (SavedState × Option JoinedAppliance)),
      (stratRestoreLoop beh now st rows).2.2.1 =
        rows.filterMap (fun r => (stratRestoreOutcome beh r).1) ∧
      (stratRestoreLoop beh now st rows).2.2.2 =
        (rows.map (fun r => (stratRestoreOutcome beh r).2)).flatten := by
  intro st rows
  induction rows generalizing st with
  | nil => exact ⟨rfl, rfl⟩
  | cons r rest ih =>
    have hstep := stratRestoreStep_outcome beh now st r
    have ihr := ih (stratRestoreStep beh now st r).1
    constructor
    · simp only [stratRestoreLoop, List.filterMap_cons, ← hstep.1, ihr.1]
      cases (stratRestoreStep beh now st r).2.2.1 <;> simp
    · simp only [stratRestoreLoop, List.map_cons, List.flatten_cons,
        ← hstep.2, ihr.2]

/-- Helper: the summary and error contributions of one snapshot in the
grid restore loop depend on its own row alone. -/
theorem gridRestoreStep_outcome (beh : DeviceBeh) (st : Database)
    (row : SavedState × Option JoinedAppliance) :
    (gridRestoreStep beh st row).2.2.1 = (gridRestoreOutcome beh row).1 ∧
      (gridRestoreStep beh st row).2.2.2 =
        (gridRestoreOutcome beh row).2 := by
  rcases row with ⟨entry, app⟩
  cases app with
  | none => exact ⟨rfl, rfl⟩
  | some a =>
    simp only [gridRestoreStep, gridRestoreOutcome]
    split_ifs <;>
      first
        | exact ⟨rfl, rfl⟩
        | (cases beh (DeviceCall.turnOn a.id) <;> exact ⟨rfl, rfl⟩)

/-- Helper: the grid restore loop's summary and error lists are the
per-snapshot maps of outcomes. -/
theorem gridRestoreLoop_outcomes (beh : DeviceBeh) :
    ∀ (st : Database) (rows : List (SavedState × Option JoinedAppliance)),
      (gridRestoreLoop beh st rows).2.2.1 =
        rows.filterMap (fun r => (gridRestoreOutcome beh r).1) ∧
      (gridRestoreLoop beh st rows).2.2.2 =
        (rows.map (fun r => (gridRestoreOutcome beh r).2)).flatten := by
  intro st rows
  induction rows generalizing st with
  | nil => exact ⟨rfl, rfl⟩
  | cons r rest ih =>
    have hstep := gridRestoreStep_outcome beh st r
    have ihr := ih (gridRestoreStep beh st r).1
    constructor
    · simp only [gridRestoreLoop, List.filterMap_cons, ← hstep.1, ihr.1]
      cases (gridRestoreStep beh st r).2.2.1 <;> simp
    · simp only [gridRestoreLoop, List.map_cons, List.flatten_cons,
        ← hstep.2, ihr.2]

/-- C9: per-device failure isolation in every batch loop. Each loop's
run summary equals the `filterMap` of a per-device outcome function of
that device's own row (for the strategy action loop: of the logs
present at loop start, given pairwise-distinct appliance ids) — so no
device's exception can abort or change the processing of its siblings —
and a raising device call is caught and recorded: as an error-marked
`actions_taken` entry in the grid action loop, and as a `logger.error`
report in the restore loops. -/
theorem per_device_failure_isolation :
    (∀ (beh : DeviceBeh) (home : Nat) (st : Database)
        (rows : List (DeviceAutopilotConfig × Option Appliance)),
      (gridHomeLoop beh home st rows).2.2 =
        rows.filterMap (gridOutcome beh)) ∧
    (∀ (beh : DeviceBeh) (c : DeviceAutopilotConfig) (a : Appliance),
      c.override_active.getD false = false → a.status ≠ .off →
      a.is_controllable.getD true = true →
      beh (DeviceCall.turnOff a.id) = none →
      gridOutcome beh (c, some a) =
        some ⟨a.id, "emergency_off", false, true⟩) ∧
    (∀ (beh : DeviceBeh) (home : Nat) (now : LocalDateTime) (penalty : ℚ)
        (trigger : String) (apps : List Appliance) (st : Database)
        (cfgs : List DeviceAutopilotConfig),
      cfgs.Pairwise (fun c c' => c.appliance_id ≠ c'.appliance_id) →
      (stratLoop beh home now penalty trigger apps st cfgs).2.2 =
        cfgs.filterMap (stratOutcome beh now penalty apps st.logs)) ∧
    (∀ (beh : DeviceBeh) (now : LocalDateTime) (st : Database)
        (rows : List (SavedState × Option JoinedAppliance)),
      (stratRestoreLoop beh now st rows).2.2.1 =
        rows.filterMap (fun r => (stratRestoreOutcome beh r).1) ∧
      (stratRestoreLoop beh now st rows).2.2.2 =
        (rows.map (fun r => (stratRestoreOutcome beh r).2)).flatten) ∧
    (∀ (beh : DeviceBeh) (st : Database)
        (rows : List (SavedState × Option JoinedAppliance)),
      (gridRestoreLoop beh st rows).2.2.1 =
        rows.filterMap (fun r => (gridRestoreOutcome beh r).1) ∧
      (gridRestoreLoop beh st rows).2.2.2 =
        (rows.map (fun r => (gridRestoreOutcome beh r).2)).flatten) ∧
    (∀ (beh : DeviceBeh) (entry : SavedState) (a : JoinedAppliance),
      (entry.prev_status = .on ∨ entry.prev_status = .warning) →
      a.status ≠ .on →
      beh (DeviceCall.turnOn entry.appliance_id) = none →
      stratRestoreOutcome beh (entry, some a) =
        (none, [entry.appliance_id])) := by
  refine ⟨gridHomeLoop_actions, ?_, stratLoop_actions,
    stratRestoreLoop_outcomes, gridRestoreLoop_outcomes, ?_⟩
  · intro beh c a hov hstat hctl hbeh
    simp [gridOutcome, hov, hstat, hctl, hbeh]
  · intro beh entry a hprev hstat hbeh
    rcases hprev with h | h <;>
      simp [stratRestoreOutcome, h, hstat, hbeh]

/-- Witness for C9: a boundary that raises on every call still yields
an error-marked entry for a grid-eligible device, and the strategy loop
over the demo batch still equals its per-device map. -/
theorem per_device_failure_isolation_witness :
    gridOutcome (fun _ => none) (demoEcoConfig, some demoAppliance) =
      some ⟨1, "emergency_off", false, true⟩ ∧
    (stratLoop (fun _ => none) 1 demoNow 1 "penalty_threshold"
        [demoAppliance] ⟨[demoAppliance], [demoEcoConfig], ⟨[], 0⟩, []⟩
        [demoEcoConfig]).2.2 =
      [demoEcoConfig].filterMap
        (stratOutcome (fun _ => none) demoNow 1 [demoAppliance] []) := by
  constructor
  · exact per_device_failure_isolation.2.1 (fun _ => none) demoEcoConfig
      demoAppliance rfl (by decide) rfl rfl
  · exact per_device_failure_isolation.2.2.1 (fun _ => none) 1 demoNow 1
      "penalty_threshold" [demoAppliance]
      ⟨[demoAppliance], [demoEcoConfig], ⟨[], 0⟩, []⟩ [demoEcoConfig]
      (by simp)

end Voltwise
